import Mathlib

/-!
Verification of the constants/identifiers module of the bitcash-contract-dho
governance vocabulary (src/include/common/constants.hpp).

The module defines `eosio::name` constants (phase names, status names, vote
options, a settings key) plus two plain `int64_t` constants.  An
`eosio::name` literal `"str"_n` denotes a 64-bit unsigned integer obtained
from the base-32 character encoding used by EOSIO: each of the first twelve
characters contributes five bits (from the most significant end), a
thirteenth character contributes the low four bits.  We embed that encoding
directly, so two constants are the same name exactly when the embedding
yields the same number.
-/

namespace common

/-- The EOSIO per-character code: '.' ↦ 0, '1'–'5' ↦ 1–5, 'a'–'z' ↦ 6–31. -/
def charToValue (c : Char) : Nat :=
  if c = '.' then 0
  else if '1' ≤ c ∧ c ≤ '5' then c.toNat - ('1').toNat + 1
  else if 'a' ≤ c ∧ c ≤ 'z' then c.toNat - ('a').toNat + 6
  else 0

/-- The fold of `eosio::name::string_to_uint64_t`: character `i` (0-based,
`i < 12`) is placed at bit offset `64 - 5 * (i + 1)`; a thirteenth character
(`i = 12`) fills the low four bits and ends the encoding. -/
def nameAux : List Char → Nat → Nat → Nat
  | [], _, n => n
  | c :: cs, i, n =>
    if i < 12 then
      nameAux cs (i + 1) (n ||| ((charToValue c % 32) <<< (64 - 5 * (i + 1))))
    else if i = 12 then
      n ||| (charToValue c % 16)
    else
      n

/-- The 64-bit value of an `eosio::name` literal. -/
def nameValue (s : String) : Nat :=
  nameAux s.toList 0 0 % 2 ^ 64

/-- `common::microseconds_per_day`, an `int64_t` in the source. -/
def microseconds_per_day : Int := 86400000000

/-- Modelled from the spec: the source supplies only the constant
`microseconds_per_day`; the conversion of a whole-day phase/window duration
into clock microseconds ("all phase/window durations are expressed in whole
days") is modelled as multiplication by that constant. -/
def durationToMicroseconds (d : Int) : Int :=
  d * microseconds_per_day

namespace settings

/-- `common::settings::min_stake`. -/
def min_stake : Nat := nameValue (r"minstake")

/-- The complete list of settings keys defined by the source: the
`common::settings` namespace contains exactly one constant. -/
def settings_keys : List Nat := [min_stake]

end settings

namespace referendums

/-- `common::referendums::status_created`. -/
def status_created : Nat := nameValue (r"created")

/-- `common::referendums::status_started`. -/
def status_started : Nat := nameValue (r"started")

/-- `common::referendums::status_hold`. -/
def status_hold : Nat := nameValue (r"hold")

/-- `common::referendums::status_accepted`. -/
def status_accepted : Nat := nameValue (r"accepted")

/-- `common::referendums::status_rejected`. -/
def status_rejected : Nat := nameValue (r"rejected")

/-- `common::referendums::vote_favour`. -/
def vote_favour : Nat := nameValue (r"favour")

/-- `common::referendums::vote_against`. -/
def vote_against : Nat := nameValue (r"against")

/-- `common::referendums::vote_abstain`. -/
def vote_abstain : Nat := nameValue (r"abstain")

/-- The referendum status enumeration, in source order. -/
def status_identifiers : List Nat :=
  [status_created, status_started, status_hold, status_accepted, status_rejected]

/-- The referendum ballot-choice enumeration, in source order. -/
def vote_identifiers : List Nat :=
  [vote_favour, vote_against, vote_abstain]

end referendums

namespace proposals

/-- `common::proposals::type_main`. -/
def type_main : Nat := nameValue (r"main")

/-- `common::proposals::type_amendment`. -/
def type_amendment : Nat := nameValue (r"amendment")

/-- `common::proposals::type_extend_debate` (name literal `extenddebate`). -/
def type_extend_debate : Nat := nameValue (r"extenddebate")

/-- `common::proposals::type_shorten_debate` (name literal `shortndebate`). -/
def type_shorten_debate : Nat := nameValue (r"shortndebate")

/-- `common::proposals::status_open`. -/
def status_open : Nat := nameValue (r"open")

/-- `common::proposals::status_accepted`. -/
def status_accepted : Nat := nameValue (r"accepted")

/-- `common::proposals::status_rejected`. -/
def status_rejected : Nat := nameValue (r"rejected")

/-- `common::proposals::phase_discussion`. -/
def phase_discussion : Nat := nameValue (r"discussion")

/-- `common::proposals::phase_debate`. -/
def phase_debate : Nat := nameValue (r"debate")

/-- `common::proposals::phase_debate_voting` (name literal `debatevoting`). -/
def phase_debate_voting : Nat := nameValue (r"debatevoting")

/-- `common::proposals::phase_voting`. -/
def phase_voting : Nat := nameValue (r"voting")

/-- `common::proposals::phase_accepted`. -/
def phase_accepted : Nat := nameValue (r"accepted")

/-- `common::proposals::phase_rejected`. -/
def phase_rejected : Nat := nameValue (r"rejected")

/-- The proposal type enumeration, in source order. -/
def type_identifiers : List Nat :=
  [type_main, type_amendment, type_extend_debate, type_shorten_debate]

/-- The proposal status enumeration, in source order. -/
def status_identifiers : List Nat :=
  [status_open, status_accepted, status_rejected]

namespace phases

/-- `common::proposals::phases::no_phase` (name literal `nophase`). -/
def no_phase : Nat := nameValue (r"nophase")

/-- `common::proposals::phases::type_draft`. -/
def type_draft : Nat := nameValue (r"draft")

/-- `common::proposals::phases::type_dialog`. -/
def type_dialog : Nat := nameValue (r"dialog")

/-- `common::proposals::phases::type_voting`. -/
def type_voting : Nat := nameValue (r"voting")

/-- `common::proposals::phases::undefined_duration_days`, an `int64_t`. -/
def undefined_duration_days : Int := -1

end phases

/-- The proposal phase enumeration together with the `no_phase` sentinel,
in source order. -/
def phase_identifiers : List Nat :=
  [phase_discussion, phase_debate, phase_debate_voting, phase_voting,
   phase_accepted, phase_rejected, phases.no_phase]

end proposals

end common

open common

/-- Claim C1: the day-length time unit is exactly 86,400,000,000 microseconds
per day; it fits a signed 64-bit integer, and every whole-day duration `d`
converts to `d * microseconds_per_day` microseconds. -/
theorem claim_C1_microseconds_per_day :
    microseconds_per_day = 86400000000 ∧
    -(2 ^ 63) ≤ microseconds_per_day ∧ microseconds_per_day < 2 ^ 63 ∧
    ∀ d : Int, durationToMicroseconds d = d * 86400000000 := by
  refine ⟨rfl, by decide, by decide, fun d => rfl⟩

/-- Claim C2: the undefined-duration sentinel
`common::proposals::phases::undefined_duration_days` equals `-1`, a value
distinct from every valid non-negative whole-day duration. -/
theorem claim_C2_undefined_duration_sentinel :
    proposals.phases.undefined_duration_days = -1 ∧
    ∀ d : Int, 0 ≤ d → proposals.phases.undefined_duration_days ≠ d := by
  refine ⟨rfl, fun d hd heq => ?_⟩
  rw [proposals.phases.undefined_duration_days] at heq
  omega

/-- Witness for C2 at the concrete duration 0. -/
theorem claim_C2_witness :
    (0 : Int) ≤ 0 ∧ proposals.phases.undefined_duration_days ≠ 0 :=
  ⟨le_refl 0, claim_C2_undefined_duration_sentinel.2 0 (le_refl 0)⟩

/-- Claim C3: the proposal phase enumeration is exactly the six phases
discussion, debate, debate_voting, voting, accepted, rejected plus the single
sentinel `no_phase`: seven pairwise-distinct identifiers and no others. -/
theorem claim_C3_phase_enumeration :
    proposals.phase_identifiers =
      [proposals.phase_discussion, proposals.phase_debate,
       proposals.phase_debate_voting, proposals.phase_voting,
       proposals.phase_accepted, proposals.phase_rejected,
       proposals.phases.no_phase] ∧
    proposals.phase_identifiers.length = 7 ∧
    proposals.phase_identifiers.Nodup := by
  refine ⟨rfl, rfl, by decide⟩

/-- Claim C4: the referendum status enumeration is exactly the five statuses
created, started, hold, accepted, rejected, pairwise distinct. -/
theorem claim_C4_referendum_statuses :
    referendums.status_identifiers =
      [referendums.status_created, referendums.status_started,
       referendums.status_hold, referendums.status_accepted,
       referendums.status_rejected] ∧
    referendums.status_identifiers.length = 5 ∧
    referendums.status_identifiers.Nodup := by
  refine ⟨rfl, rfl, by decide⟩

/-- Claim C5: the referendum ballot choices are exactly favour, against,
abstain — three defined, pairwise-distinct identifiers and no fourth. -/
theorem claim_C5_vote_options :
    referendums.vote_identifiers =
      [referendums.vote_favour, referendums.vote_against,
       referendums.vote_abstain] ∧
    referendums.vote_identifiers.length = 3 ∧
    referendums.vote_identifiers.Nodup := by
  refine ⟨rfl, rfl, by decide⟩

/-- Claim C6: the proposal type enumeration is exactly main, amendment,
extend_debate, shorten_debate — four pairwise-distinct identifiers. -/
theorem claim_C6_proposal_types :
    proposals.type_identifiers =
      [proposals.type_main, proposals.type_amendment,
       proposals.type_extend_debate, proposals.type_shorten_debate] ∧
    proposals.type_identifiers.length = 4 ∧
    proposals.type_identifiers.Nodup := by
  refine ⟨rfl, rfl, by decide⟩

/-- Claim C7: the minimum-stake threshold uses the single dedicated settings
key `min_stake` (name literal `minstake`), the only settings key defined. -/
theorem claim_C7_min_stake_key :
    settings.settings_keys = [settings.min_stake] ∧
    settings.settings_keys.length = 1 ∧
    settings.min_stake = nameValue (r"minstake") :=
  ⟨rfl, rfl, rfl⟩

/-- Claim C8: within each identifier enumeration — referendum statuses,
referendum vote options, proposal types, proposal statuses, proposal phases
plus `no_phase` — all defined name values are pairwise distinct. -/
theorem claim_C8_enumerations_nodup :
    referendums.status_identifiers.Nodup ∧
    referendums.vote_identifiers.Nodup ∧
    proposals.type_identifiers.Nodup ∧
    proposals.status_identifiers.Nodup ∧
    proposals.phase_identifiers.Nodup := by
  refine ⟨by decide, by decide, by decide, by decide, by decide⟩

/-- Claim C9: the terminal identifiers coincide across the enumerations —
proposal phase, proposal status and referendum status all share one name
value for `accepted` and one for `rejected`. -/
theorem claim_C9_terminal_identifiers_coincide :
    proposals.phase_accepted = proposals.status_accepted ∧
    proposals.phase_accepted = referendums.status_accepted ∧
    proposals.phase_rejected = proposals.status_rejected ∧
    proposals.phase_rejected = referendums.status_rejected :=
  ⟨rfl, rfl, rfl, rfl⟩

/-- Claim C10: the phase-duration kinds relate non-uniformly to the phases —
`phases::type_voting` equals `phase_voting`, while `type_draft` and
`type_dialog` differ from every phase identifier (in particular from
`phase_discussion` and `phase_debate`), so the phase-to-duration-key map is
not the identity on names. -/
theorem claim_C10_duration_kind_names :
    proposals.phases.type_voting = proposals.phase_voting ∧
    proposals.phases.type_draft ∉ proposals.phase_identifiers ∧
    proposals.phases.type_dialog ∉ proposals.phase_identifiers ∧
    proposals.phases.type_draft ≠ proposals.phase_discussion ∧
    proposals.phases.type_dialog ≠ proposals.phase_debate := by
  refine ⟨rfl, by decide, by decide, by decide, by decide⟩
